import Mathlib

/-!
Verification of the settings-management behaviour of the `orderly-starter`
server (`src/server.js`).  The server keeps a process-lifetime map from shop
identifier to a settings record and exposes two JSON endpoints,
`GET /api/settings` and `POST /api/settings`, plus a middleware that sets the
`Content-Security-Policy` header.  We embed the store, the two handlers and
the frame-ancestors computation shallowly and prove the specified properties.
-/

namespace Orderly

/-- A JSON value as it appears in a parsed request body (`req.body`).
Numbers are modelled by integers; only their truthiness matters here. -/
inductive JVal where
  | null : JVal
  | bool (b : Bool) : JVal
  | num (n : Int) : JVal
  | str (s : String) : JVal
  | arr : JVal
  | obj : JVal
deriving DecidableEq, Repr

/-- JavaScript truthiness (`Boolean(v)`) of a JSON value: `null`, `false`,
`0` and `""` are falsy; arrays and objects are always truthy. -/
def JVal.toBool : JVal → Bool
  | .null => false
  | .bool b => b
  | .num n => n != 0
  | .str s => s != ""
  | .arr => true
  | .obj => true

/-- `Boolean(body.field)` where the field may be absent (`undefined`). -/
def truthy : Option JVal → Bool
  | none => false
  | some v => v.toBool

/-- The `typeof v === "string"` guard: yields the string when the field is
present and is a string, and `none` otherwise. -/
def asString : Option JVal → Option String
  | some (.str s) => some s
  | _ => none

/-- A value of the `shop` query parameter as Express delivers it:
a string, an array of strings (repeated parameter), or an object. -/
inductive QVal where
  | str (s : String) : QVal
  | arrv (vs : List String) : QVal
  | objv : QVal
deriving DecidableEq, Repr

/-- The handlers' validation `if (!shop || typeof shop !== "string")`:
the request proceeds exactly when the parameter is present, is a string and
is truthy (non-empty).  Returns the accepted shop key, else `none`. -/
def shopOfQuery : Option QVal → Option String
  | some (.str s) => if s = "" then none else some s
  | _ => none

/-- The per-shop settings record (the `defaultSettings` shape in `server.js`). -/
structure SettingsRecord where
  shop : String
  brandName : String
  accent : String
  notifyDelay : Bool
  notifyOutForDelivery : Bool
  notifyDelivered : Bool
deriving DecidableEq, Repr

/-- `defaultSettings(shop)` from `server.js`. -/
def defaultSettings (shop : String) : SettingsRecord :=
  { shop := shop
    brandName := "Orderly"
    accent := "#16a34a"
    notifyDelay := true
    notifyOutForDelivery := true
    notifyDelivered := true }

/-- The in-memory store `settingsByShop` (a `Map` keyed by shop string),
modelled as an association list without duplicate keys in normal use. -/
abbrev Store : Type := List (String × SettingsRecord)

/-- `settingsByShop.get(shop)`. -/
def lookupStore : Store → String → Option SettingsRecord
  | [], _ => none
  | (k, v) :: rest, s => if k = s then some v else lookupStore rest s

/-- `settingsByShop.set(shop, record)`: replaces the binding for an existing
key in place, otherwise appends a new binding. -/
def storeSet : Store → String → SettingsRecord → Store
  | [], s, r => [(s, r)]
  | (k, v) :: rest, s, r =>
      if k = s then (s, r) :: rest else (k, v) :: storeSet rest s r

/-- The JSON request body of `POST /api/settings`, restricted to the fields
the handler reads; each may be absent (`undefined`).  A `shop` field is also
representable because clients may send one; the handler never reads it. -/
structure Body where
  brandName : Option JVal := none
  accent : Option JVal := none
  notifyDelay : Option JVal := none
  notifyOutForDelivery : Option JVal := none
  notifyDelivered : Option JVal := none
  shop : Option JVal := none
deriving DecidableEq, Repr

/-- The merge in the POST handler: `{...prev, brandName: ..., accent: ...,
notifyDelay: Boolean(...), ...}`.  String fields are kept when the incoming
value is absent or not a string (`brandName` additionally truncated with
`.slice(0, 40)`); the three flags are always overwritten with the truthiness
of the incoming field; `shop` comes from `prev` (the body is not spread). -/
def mergeSettings (prev : SettingsRecord) (body : Body) : SettingsRecord :=
  { shop := prev.shop
    brandName :=
      match asString body.brandName with
      | some s => s.take 40
      | none => prev.brandName
    accent :=
      match asString body.accent with
      | some s => s
      | none => prev.accent
    notifyDelay := truthy body.notifyDelay
    notifyOutForDelivery := truthy body.notifyOutForDelivery
    notifyDelivered := truthy body.notifyDelivered }

/-- A response of either API handler: the success envelope
`{ok: true, settings}` or the error envelope `{ok: false, error}`. -/
inductive ApiResponse where
  | success (settings : SettingsRecord) : ApiResponse
  | failure (error : String) : ApiResponse
deriving DecidableEq, Repr

/-- The HTTP status the handler attaches: `res.status(400)` on the error
path, the default `200` otherwise. -/
def ApiResponse.status : ApiResponse → Nat
  | .success _ => 200
  | .failure _ => 400

/-- `GET /api/settings` (`app.get("/api/settings", ...)` in `server.js`):
validate `shop`, get-or-default the record, store it back, return it. -/
def getSettings (store : Store) (q : Option QVal) : Store × ApiResponse :=
  match shopOfQuery q with
  | none => (store, .failure "Missing ?shop=")
  | some shop =>
      let current := (lookupStore store shop).getD (defaultSettings shop)
      (storeSet store shop current, .success current)

/-- `POST /api/settings` (`app.post("/api/settings", ...)` in `server.js`):
validate `shop`, merge the body into the current-or-default record, store
and return the result. -/
def postSettings (store : Store) (q : Option QVal) (body : Body) :
    Store × ApiResponse :=
  match shopOfQuery q with
  | none => (store, .failure "Missing ?shop=")
  | some shop =>
      let prev := (lookupStore store shop).getD (defaultSettings shop)
      let next := mergeSettings prev body
      (storeSet store shop next, .success next)

/-- The always-present frame-ancestors origins of the CSP middleware. -/
def baseFrameAncestors : List String :=
  ["https://admin.shopify.com", "https://*.myshopify.com"]

/-- The `frameAncestors` list built by the CSP middleware: the two base
origins, plus `https://<shop>` pushed when the `shop` query parameter is a
string ending in `.myshopify.com`. -/
def frameAncestors (q : Option QVal) : List String :=
  match q with
  | some (.str s) =>
      if s.endsWith ".myshopify.com" then
        baseFrameAncestors ++ ["https://" ++ s]
      else baseFrameAncestors
  | _ => baseFrameAncestors

/-- The `frame-ancestors` directive of the `Content-Security-Policy` header
set by the middleware (the other five directives of the header are constant
strings and carry no shop-dependent content). -/
def frameAncestorsDirective (q : Option QVal) : String :=
  "frame-ancestors " ++ String.intercalate " " (frameAncestors q)

/-- Invariant: every record in the store carries as its `shop` field the key
it is stored under. -/
def shopKeyInv (store : Store) : Prop :=
  ∀ k r, lookupStore store k = some r → r.shop = k

/-- Invariant: every record in the store has a `brandName` of at most 40
characters. -/
def brandLenInv (store : Store) : Prop :=
  ∀ k r, lookupStore store k = some r → r.brandName.length ≤ 40

/-- The body `{notifyDelivered: false}` of the merge-semantics example. -/
def onlyNotifyDeliveredFalse : Body :=
  { notifyDelivered := some (JVal.bool false) }

/-! ### Store lemmas -/

/-- Looking up the key just written returns the written record. -/
theorem lookupStore_storeSet_self (st : Store) (k : String) (r : SettingsRecord) :
    lookupStore (storeSet st k r) k = some r := by
  induction st with
  | nil => simp [storeSet, lookupStore]
  | cons hd tl ih =>
      obtain ⟨k0, v⟩ := hd
      by_cases h : k0 = k
      · simp [storeSet, lookupStore, h]
      · simp [storeSet, lookupStore, h, ih]

/-- Writing one key leaves every other key unchanged. -/
theorem lookupStore_storeSet_ne (st : Store) (k k' : String) (r : SettingsRecord)
    (h : k' ≠ k) : lookupStore (storeSet st k r) k' = lookupStore st k' := by
  induction st with
  | nil => simp [storeSet, lookupStore, Ne.symm h]
  | cons hd tl ih =>
      obtain ⟨k0, v⟩ := hd
      by_cases h0 : k0 = k
      · subst h0
        simp [storeSet, lookupStore, Ne.symm h]
      · simp [storeSet, lookupStore, h0, ih]

/-- Writing the same key twice keeps only the second record. -/
theorem storeSet_storeSet (st : Store) (k : String) (r r' : SettingsRecord) :
    storeSet (storeSet st k r) k r' = storeSet st k r' := by
  induction st with
  | nil => simp [storeSet]
  | cons hd tl ih =>
      obtain ⟨k0, v⟩ := hd
      by_cases h : k0 = k
      · simp [storeSet, h]
      · simp [storeSet, h, ih]

/-! ### Handler unfolding lemmas -/

/-- A non-empty string shop parameter passes the handlers' validation. -/
theorem shopOfQuery_str (shop : String) (hs : shop ≠ "") :
    shopOfQuery (some (QVal.str shop)) = some shop := by
  simp [shopOfQuery, hs]

/-- `GET /api/settings` when the shop validation succeeds. -/
theorem getSettings_some (store : Store) (q : Option QVal) (shop : String)
    (hq : shopOfQuery q = some shop) :
    getSettings store q =
      (storeSet store shop ((lookupStore store shop).getD (defaultSettings shop)),
       ApiResponse.success ((lookupStore store shop).getD (defaultSettings shop))) := by
  simp [getSettings, hq]

/-- `POST /api/settings` when the shop validation succeeds. -/
theorem postSettings_some (store : Store) (q : Option QVal) (shop : String)
    (hq : shopOfQuery q = some shop) (body : Body) :
    postSettings store q body =
      (storeSet store shop
         (mergeSettings ((lookupStore store shop).getD (defaultSettings shop)) body),
       ApiResponse.success
         (mergeSettings ((lookupStore store shop).getD (defaultSettings shop)) body)) := by
  simp [postSettings, hq]

/-- `GET /api/settings` on a validated shop key. -/
theorem getSettings_str (store : Store) (shop : String) (hs : shop ≠ "") :
    getSettings store (some (QVal.str shop)) =
      (storeSet store shop ((lookupStore store shop).getD (defaultSettings shop)),
       ApiResponse.success ((lookupStore store shop).getD (defaultSettings shop))) :=
  getSettings_some store _ shop (shopOfQuery_str shop hs)

/-- `POST /api/settings` on a validated shop key. -/
theorem postSettings_str (store : Store) (shop : String) (hs : shop ≠ "") (body : Body) :
    postSettings store (some (QVal.str shop)) body =
      (storeSet store shop
         (mergeSettings ((lookupStore store shop).getD (defaultSettings shop)) body),
       ApiResponse.success
         (mergeSettings ((lookupStore store shop).getD (defaultSettings shop)) body)) :=
  postSettings_some store _ shop (shopOfQuery_str shop hs) body

/-- A query failing the shop validation makes both handlers answer the error
envelope without touching the store. -/
theorem handlers_invalid (store : Store) (q : Option QVal) (body : Body)
    (h : shopOfQuery q = none) :
    getSettings store q = (store, ApiResponse.failure "Missing ?shop=") ∧
    postSettings store q body = (store, ApiResponse.failure "Missing ?shop=") := by
  constructor
  · simp [getSettings, h]
  · simp [postSettings, h]

/-- The truncated brand name has at most `n` characters. -/
theorem string_take_length_le (s : String) (n : Nat) : (s.take n).length ≤ n := by
  rw [String.take_eq]
  exact List.length_take_le n s.data

/-- The record that get-or-create hands to the handler body carries the
requested shop key in its `shop` field, given the store invariant. -/
theorem getD_shop (store : Store) (hwf : shopKeyInv store) (shop : String) :
    ((lookupStore store shop).getD (defaultSettings shop)).shop = shop := by
  cases hcur : lookupStore store shop with
  | none => rfl
  | some r => exact hwf shop r hcur

/-- Writing a record whose `shop` field matches its key preserves the
shop-key invariant. -/
theorem shopKeyInv_storeSet (store : Store) (hwf : shopKeyInv store) (k : String)
    (r : SettingsRecord) (hr : r.shop = k) : shopKeyInv (storeSet store k r) := by
  intro k' r' h
  by_cases hk : k' = k
  · subst hk
    rw [lookupStore_storeSet_self] at h
    injection h with h2
    subst h2
    exact hr
  · rw [lookupStore_storeSet_ne store k k' r hk] at h
    exact hwf k' r' h

/-- The record that get-or-create hands to the handler body has a brand name
of at most 40 characters, given the store invariant. -/
theorem getD_brandName_le (store : Store) (hinv : brandLenInv store) (shop : String) :
    ((lookupStore store shop).getD (defaultSettings shop)).brandName.length ≤ 40 := by
  cases hcur : lookupStore store shop with
  | none =>
      show ("Orderly" : String).length ≤ 40
      decide
  | some r => exact hinv shop r hcur

/-- Writing a record with a short enough brand name preserves the
brand-name-length invariant. -/
theorem brandLenInv_storeSet (store : Store) (hinv : brandLenInv store) (k : String)
    (r : SettingsRecord) (hr : r.brandName.length ≤ 40) :
    brandLenInv (storeSet store k r) := by
  intro k' r' h
  by_cases hk : k' = k
  · subst hk
    rw [lookupStore_storeSet_self] at h
    injection h with h2
    subst h2
    exact hr
  · rw [lookupStore_storeSet_ne store k k' r hk] at h
    exact hinv k' r' h

/-- The merged record has a brand name of at most 40 characters whenever the
previous record does: an incoming string is truncated, otherwise the old
value is kept. -/
theorem mergeSettings_brandName_le (prev : SettingsRecord) (body : Body)
    (h : prev.brandName.length ≤ 40) :
    (mergeSettings prev body).brandName.length ≤ 40 := by
  cases hb : asString body.brandName with
  | none => simpa [mergeSettings, hb] using h
  | some s =>
      simp only [mergeSettings, hb]
      exact string_take_length_le s 40

/-! ### Claims -/

/-- C1 counterexample: the claim fails as stated.  With an existing default
record (whose `notifyDelay` is `true`), a POST whose body is only
`{notifyDelivered: false}` stores `notifyDelay = false` — the absent flag is
coerced to `false` by `Boolean(body.notifyDelay)`, not preserved. -/
theorem C1_counterexample :
    lookupStore [("acme.myshopify.com", defaultSettings "acme.myshopify.com")]
        "acme.myshopify.com" = some (defaultSettings "acme.myshopify.com") ∧
    (defaultSettings "acme.myshopify.com").notifyDelay = true ∧
    Option.map SettingsRecord.notifyDelay
      (lookupStore
        (postSettings
          [("acme.myshopify.com", defaultSettings "acme.myshopify.com")]
          (some (QVal.str "acme.myshopify.com")) onlyNotifyDeliveredFalse).1
        "acme.myshopify.com") = some false := by
  refine ⟨rfl, rfl, rfl⟩

/-- C1 (amended): for every shop with an existing settings record, a POST to
`/api/settings` whose JSON body contains only `{notifyDelivered: false}`
leaves the stored `brandName` and `accent` equal to their previous values and
sets all three notification flags — `notifyDelay`, `notifyOutForDelivery`
and `notifyDelivered` — to `false` (the two absent flags are coerced to
`false` rather than kept). -/
theorem C1_post_only_notifyDelivered (store : Store) (shop : String)
    (hs : shop ≠ "") (r : SettingsRecord)
    (hr : lookupStore store shop = some r) :
    postSettings store (some (QVal.str shop)) onlyNotifyDeliveredFalse =
      (storeSet store shop
        { r with notifyDelay := false, notifyOutForDelivery := false,
                 notifyDelivered := false },
       ApiResponse.success
        { r with notifyDelay := false, notifyOutForDelivery := false,
                 notifyDelivered := false }) := by
  rw [postSettings_str store shop hs, hr]
  simp [mergeSettings, onlyNotifyDeliveredFalse, truthy, asString, JVal.toBool]

/-- C1 witness: the amended statement at a concrete store holding the default
record for `acme.myshopify.com`. -/
theorem C1_witness :
    postSettings [("acme.myshopify.com", defaultSettings "acme.myshopify.com")]
        (some (QVal.str "acme.myshopify.com")) onlyNotifyDeliveredFalse =
      (storeSet [("acme.myshopify.com", defaultSettings "acme.myshopify.com")]
        "acme.myshopify.com"
        { defaultSettings "acme.myshopify.com" with
            notifyDelay := false, notifyOutForDelivery := false,
            notifyDelivered := false },
       ApiResponse.success
        { defaultSettings "acme.myshopify.com" with
            notifyDelay := false, notifyOutForDelivery := false,
            notifyDelivered := false }) :=
  C1_post_only_notifyDelivered _ "acme.myshopify.com" (by decide) _ rfl

/-- C2: for every shop and every JSON body, merge-update stores (and
returns) a record whose three notification flags are the truthiness
coercion of the corresponding body fields — any truthy value of any JSON
type gives `true`, an absent or falsy field gives `false` — whereas
`brandName` and `accent` keep their previous value when the incoming field
is absent or not a string. -/
theorem C2_flag_truthiness (store : Store) (shop : String) (hs : shop ≠ "")
    (body : Body) :
    ∃ next : SettingsRecord,
      postSettings store (some (QVal.str shop)) body =
        (storeSet store shop next, ApiResponse.success next) ∧
      next.notifyDelay = truthy body.notifyDelay ∧
      next.notifyOutForDelivery = truthy body.notifyOutForDelivery ∧
      next.notifyDelivered = truthy body.notifyDelivered ∧
      (asString body.brandName = none →
        next.brandName =
          ((lookupStore store shop).getD (defaultSettings shop)).brandName) ∧
      (asString body.accent = none →
        next.accent =
          ((lookupStore store shop).getD (defaultSettings shop)).accent) := by
  refine ⟨mergeSettings ((lookupStore store shop).getD (defaultSettings shop)) body,
    postSettings_str store shop hs body, rfl, rfl, rfl, ?_, ?_⟩
  · intro h
    simp [mergeSettings, h]
  · intro h
    simp [mergeSettings, h]

/-- C2 witness: posting `{notifyDelay: "yes"}` (a non-boolean truthy value)
to a fresh shop; the stored flag is the truthiness of `"yes"`, which is
`true`, and the absent flags store `false`. -/
theorem C2_witness :
    (∃ next : SettingsRecord,
      postSettings [] (some (QVal.str "acme.myshopify.com"))
          { notifyDelay := some (JVal.str "yes") } =
        (storeSet [] "acme.myshopify.com" next, ApiResponse.success next) ∧
      next.notifyDelay = truthy (some (JVal.str "yes")) ∧
      next.notifyOutForDelivery = truthy none ∧
      next.notifyDelivered = truthy none ∧
      (asString none = none →
        next.brandName =
          ((lookupStore [] "acme.myshopify.com").getD
            (defaultSettings "acme.myshopify.com")).brandName) ∧
      (asString none = none →
        next.accent =
          ((lookupStore [] "acme.myshopify.com").getD
            (defaultSettings "acme.myshopify.com")).accent)) ∧
    truthy (some (JVal.str "yes")) = true :=
  ⟨C2_flag_truthiness [] "acme.myshopify.com" (by decide)
      { notifyDelay := some (JVal.str "yes") },
   rfl⟩

/-- C3: when the `shop` query parameter is missing, empty, or not a string,
both `GET` and `POST /api/settings` answer the error envelope
`{ok: false, error: ...}` with client-error status 400 and leave the store
completely unchanged, so no entry is created for any shop. -/
theorem C3_missing_shop (store : Store) (q : Option QVal) (body : Body)
    (h : q = none ∨ q = some (QVal.str "") ∨ ∀ s, q ≠ some (QVal.str s)) :
    getSettings store q = (store, ApiResponse.failure "Missing ?shop=") ∧
    postSettings store q body = (store, ApiResponse.failure "Missing ?shop=") ∧
    (getSettings store q).2.status = 400 ∧
    (postSettings store q body).2.status = 400 := by
  have hq : shopOfQuery q = none := by
    rcases h with h | h | h
    · subst h
      rfl
    · subst h
      rfl
    · match q, h with
      | none, _ => rfl
      | some (QVal.str s), h => exact absurd rfl (h s)
      | some (QVal.arrv vs), _ => rfl
      | some QVal.objv, _ => rfl
  obtain ⟨hg, hp⟩ := handlers_invalid store q body hq
  exact ⟨hg, hp, by rw [hg]; rfl, by rw [hp]; rfl⟩

/-- C3 witness: a `GET` and a `POST` with no `shop` parameter against a
store holding one record leave it as is and answer the 400 envelope. -/
theorem C3_witness :
    getSettings [("acme.myshopify.com", defaultSettings "acme.myshopify.com")] none =
      ([("acme.myshopify.com", defaultSettings "acme.myshopify.com")],
       ApiResponse.failure "Missing ?shop=") ∧
    postSettings [("acme.myshopify.com", defaultSettings "acme.myshopify.com")] none {} =
      ([("acme.myshopify.com", defaultSettings "acme.myshopify.com")],
       ApiResponse.failure "Missing ?shop=") ∧
    (getSettings [("acme.myshopify.com", defaultSettings "acme.myshopify.com")]
        none).2.status = 400 ∧
    (postSettings [("acme.myshopify.com", defaultSettings "acme.myshopify.com")]
        none {}).2.status = 400 :=
  C3_missing_shop [("acme.myshopify.com", defaultSettings "acme.myshopify.com")]
    none {} (Or.inl rfl)

/-- C4: for every non-empty shop key not yet in the store,
`GET /api/settings` answers `{ok: true, settings: r}` where `r` is exactly
the default record — the given shop key, `brandName "Orderly"`, `accent
"#16a34a"` and all three flags `true` — and that record is stored under the
key. -/
theorem C4_fresh_shop_defaults (store : Store) (shop : String) (hs : shop ≠ "")
    (habs : lookupStore store shop = none) :
    getSettings store (some (QVal.str shop)) =
      (storeSet store shop (defaultSettings shop),
       ApiResponse.success (defaultSettings shop)) ∧
    lookupStore (getSettings store (some (QVal.str shop))).1 shop =
      some (defaultSettings shop) ∧
    defaultSettings shop =
      { shop := shop, brandName := "Orderly", accent := "#16a34a",
        notifyDelay := true, notifyOutForDelivery := true,
        notifyDelivered := true } := by
  have h1 := getSettings_str store shop hs
  rw [habs] at h1
  simp only [Option.getD_none] at h1
  refine ⟨h1, ?_, rfl⟩
  rw [h1]
  exact lookupStore_storeSet_self store shop (defaultSettings shop)

/-- C4 witness: fetching a never-seen shop from the empty store. -/
theorem C4_witness :
    getSettings [] (some (QVal.str "fresh.myshopify.com")) =
      (storeSet [] "fresh.myshopify.com" (defaultSettings "fresh.myshopify.com"),
       ApiResponse.success (defaultSettings "fresh.myshopify.com")) ∧
    lookupStore (getSettings [] (some (QVal.str "fresh.myshopify.com"))).1
      "fresh.myshopify.com" = some (defaultSettings "fresh.myshopify.com") ∧
    defaultSettings "fresh.myshopify.com" =
      { shop := "fresh.myshopify.com", brandName := "Orderly",
        accent := "#16a34a", notifyDelay := true,
        notifyOutForDelivery := true, notifyDelivered := true } :=
  C4_fresh_shop_defaults [] "fresh.myshopify.com" (by decide) rfl

/-- C5: for every shop and every POST whose body `brandName` is a string
`s`, the stored (and returned) `brandName` is exactly the first 40
characters `s.take 40`, hence always at most 40 characters long. -/
theorem C5_brandName_truncated (store : Store) (shop : String) (hs : shop ≠ "")
    (body : Body) (s : String) (hb : body.brandName = some (JVal.str s)) :
    ∃ next : SettingsRecord,
      postSettings store (some (QVal.str shop)) body =
        (storeSet store shop next, ApiResponse.success next) ∧
      next.brandName = s.take 40 ∧
      next.brandName.length ≤ 40 := by
  refine ⟨mergeSettings ((lookupStore store shop).getD (defaultSettings shop)) body,
    postSettings_str store shop hs body, ?_, ?_⟩
  · simp [mergeSettings, asString, hb]
  · simp only [mergeSettings, asString, hb]
    exact string_take_length_le s 40

set_option maxRecDepth 8000 in
/-- C5 witness: a 50-character brand name is stored as its first 40
characters. -/
theorem C5_witness :
    (∃ next : SettingsRecord,
      postSettings [] (some (QVal.str "acme.myshopify.com"))
          { brandName :=
              some (JVal.str "01234567890123456789012345678901234567890123456789") } =
        (storeSet [] "acme.myshopify.com" next, ApiResponse.success next) ∧
      next.brandName =
        String.take "01234567890123456789012345678901234567890123456789" 40 ∧
      next.brandName.length ≤ 40) ∧
    String.length "01234567890123456789012345678901234567890123456789" = 50 ∧
    String.take "01234567890123456789012345678901234567890123456789" 40 =
      "0123456789012345678901234567890123456789" :=
  ⟨C5_brandName_truncated [] "acme.myshopify.com" (by decide)
      { brandName :=
          some (JVal.str "01234567890123456789012345678901234567890123456789") }
      "01234567890123456789012345678901234567890123456789" rfl,
   rfl, by decide⟩

/-- C6: two consecutive `GET /api/settings` calls for the same shop with no
intervening POST are idempotent on both the store and the response: the
second call returns the identical settings record and leaves the store the
first call produced untouched. -/
theorem C6_get_idempotent (store : Store) (shop : String) (hs : shop ≠ "") :
    getSettings (getSettings store (some (QVal.str shop))).1
        (some (QVal.str shop)) =
      getSettings store (some (QVal.str shop)) := by
  rw [getSettings_str store shop hs, getSettings_str _ shop hs,
    lookupStore_storeSet_self]
  simp only [Option.getD_some, storeSet_storeSet]

/-- C6 witness: two consecutive fetches of the same fresh shop agree. -/
theorem C6_witness :
    getSettings (getSettings [] (some (QVal.str "acme.myshopify.com"))).1
        (some (QVal.str "acme.myshopify.com")) =
      getSettings [] (some (QVal.str "acme.myshopify.com")) :=
  C6_get_idempotent [] "acme.myshopify.com" (by decide)

/-- C7: the shop field is the map key and is immutable.  If every stored
record carries its key in its `shop` field, both handlers preserve this; the
merge ignores any `shop` field supplied in the request body and keeps the
`shop` of the previous record. -/
theorem C7_shop_field_immutable (store : Store) (hwf : shopKeyInv store)
    (q : Option QVal) (body : Body) (prev : SettingsRecord) (v : Option JVal) :
    shopKeyInv (getSettings store q).1 ∧
    shopKeyInv (postSettings store q body).1 ∧
    mergeSettings prev { body with shop := v } = mergeSettings prev body ∧
    (mergeSettings prev body).shop = prev.shop := by
  refine ⟨?_, ?_, rfl, rfl⟩
  · cases hq : shopOfQuery q with
    | none =>
        rw [(handlers_invalid store q body hq).1]
        exact hwf
    | some shop =>
        rw [getSettings_some store q shop hq]
        exact shopKeyInv_storeSet store hwf shop _ (getD_shop store hwf shop)
  · cases hq : shopOfQuery q with
    | none =>
        rw [(handlers_invalid store q body hq).2]
        exact hwf
    | some shop =>
        rw [postSettings_some store q shop hq body]
        exact shopKeyInv_storeSet store hwf shop _ (getD_shop store hwf shop)

/-- C7 witness: the invariant at the empty store, a concrete query and a
body that does supply a `shop` field (which is ignored). -/
theorem C7_witness :
    shopKeyInv (getSettings [] (some (QVal.str "acme.myshopify.com"))).1 ∧
    shopKeyInv (postSettings [] (some (QVal.str "acme.myshopify.com")) {}).1 ∧
    mergeSettings (defaultSettings "acme.myshopify.com")
        { ({} : Body) with shop := some (JVal.str "evil.example") } =
      mergeSettings (defaultSettings "acme.myshopify.com") {} ∧
    (mergeSettings (defaultSettings "acme.myshopify.com") {}).shop =
      (defaultSettings "acme.myshopify.com").shop :=
  C7_shop_field_immutable [] (fun k r h => by simp [lookupStore] at h)
    (some (QVal.str "acme.myshopify.com")) {} (defaultSettings "acme.myshopify.com")
    (some (JVal.str "evil.example"))

/-- C8: every record ever stored has a `brandName` of at most 40
characters: the default satisfies the bound, and both handlers preserve the
invariant, since every write path truncates rather than rejects. -/
theorem C8_brandName_bound (store : Store) (hinv : brandLenInv store)
    (q : Option QVal) (body : Body) (shop : String) :
    (defaultSettings shop).brandName.length ≤ 40 ∧
    brandLenInv (getSettings store q).1 ∧
    brandLenInv (postSettings store q body).1 := by
  refine ⟨?_, ?_, ?_⟩
  · show ("Orderly" : String).length ≤ 40
    decide
  · cases hq : shopOfQuery q with
    | none =>
        rw [(handlers_invalid store q body hq).1]
        exact hinv
    | some shop2 =>
        rw [getSettings_some store q shop2 hq]
        exact brandLenInv_storeSet store hinv shop2 _
          (getD_brandName_le store hinv shop2)
  · cases hq : shopOfQuery q with
    | none =>
        rw [(handlers_invalid store q body hq).2]
        exact hinv
    | some shop2 =>
        rw [postSettings_some store q shop2 hq body]
        exact brandLenInv_storeSet store hinv shop2 _
          (mergeSettings_brandName_le _ body (getD_brandName_le store hinv shop2))

/-- C8 witness: the invariant at the empty store, a concrete shop and a
body posting an over-long brand name. -/
theorem C8_witness :
    (defaultSettings "acme.myshopify.com").brandName.length ≤ 40 ∧
    brandLenInv (getSettings [] (some (QVal.str "acme.myshopify.com"))).1 ∧
    brandLenInv
      (postSettings [] (some (QVal.str "acme.myshopify.com"))
        { brandName :=
            some (JVal.str "01234567890123456789012345678901234567890123456789") }).1 :=
  C8_brandName_bound [] (fun k r h => by simp [lookupStore] at h)
    (some (QVal.str "acme.myshopify.com"))
    { brandName :=
        some (JVal.str "01234567890123456789012345678901234567890123456789") }
    "acme.myshopify.com"

/-- C9: the `frame-ancestors` directive of the Content-Security-Policy
header always contains `https://admin.shopify.com` and
`https://*.myshopify.com`; it additionally contains `https://<shop>` when
the `shop` query parameter is a string ending in `.myshopify.com`, and is
exactly the two base origins otherwise (parameter absent, not a string, or
not ending in `.myshopify.com`). -/
theorem C9_frame_ancestors (q : Option QVal) (s : String) :
    "https://admin.shopify.com" ∈ frameAncestors q ∧
    "https://*.myshopify.com" ∈ frameAncestors q ∧
    (q = some (QVal.str s) → s.endsWith ".myshopify.com" = true →
      ("https://" ++ s) ∈ frameAncestors q) ∧
    (q = some (QVal.str s) → s.endsWith ".myshopify.com" = false →
      frameAncestors q = baseFrameAncestors) ∧
    ((∀ s2 : String, q ≠ some (QVal.str s2)) →
      frameAncestors q = baseFrameAncestors) ∧
    frameAncestorsDirective q =
      "frame-ancestors " ++ String.intercalate " " (frameAncestors q) := by
  have hbase : "https://admin.shopify.com" ∈ frameAncestors q ∧
      "https://*.myshopify.com" ∈ frameAncestors q := by
    rcases q with _ | qv
    · simp [frameAncestors, baseFrameAncestors]
    · rcases qv with s2 | vs | _
      · by_cases h : s2.endsWith ".myshopify.com" <;>
          simp [frameAncestors, baseFrameAncestors, h]
      · simp [frameAncestors, baseFrameAncestors]
      · simp [frameAncestors, baseFrameAncestors]
  refine ⟨hbase.1, hbase.2, ?_, ?_, ?_, rfl⟩
  · intro hq hends
    subst hq
    simp [frameAncestors, hends]
  · intro hq hends
    subst hq
    simp [frameAncestors, hends]
  · intro h
    rcases q with _ | qv
    · rfl
    · rcases qv with s2 | vs | _
      · exact absurd rfl (h s2)
      · rfl
      · rfl

/-- C9 witness: the directive for
`?shop=acme.myshopify.com` contains the two base origins and the literal
shop origin. -/
theorem C9_witness :
    "https://admin.shopify.com" ∈
      frameAncestors (some (QVal.str "acme.myshopify.com")) ∧
    "https://*.myshopify.com" ∈
      frameAncestors (some (QVal.str "acme.myshopify.com")) ∧
    (some (QVal.str "acme.myshopify.com") =
        some (QVal.str "acme.myshopify.com") →
      String.endsWith "acme.myshopify.com" ".myshopify.com" = true →
      ("https://" ++ "acme.myshopify.com") ∈
        frameAncestors (some (QVal.str "acme.myshopify.com"))) ∧
    (some (QVal.str "acme.myshopify.com") =
        some (QVal.str "acme.myshopify.com") →
      String.endsWith "acme.myshopify.com" ".myshopify.com" = false →
      frameAncestors (some (QVal.str "acme.myshopify.com")) =
        baseFrameAncestors) ∧
    ((∀ s2 : String,
        some (QVal.str "acme.myshopify.com") ≠ some (QVal.str s2)) →
      frameAncestors (some (QVal.str "acme.myshopify.com")) =
        baseFrameAncestors) ∧
    frameAncestorsDirective (some (QVal.str "acme.myshopify.com")) =
      "frame-ancestors " ++
        String.intercalate " "
          (frameAncestors (some (QVal.str "acme.myshopify.com"))) :=
  C9_frame_ancestors (some (QVal.str "acme.myshopify.com")) "acme.myshopify.com"

/-- C10: each request touches at most its own shop entry: for every store,
every shop parameter `s` and every other key `k ≠ s`, both `GET` and
`POST /api/settings` leave the record stored under `k` unchanged. -/
theorem C10_other_keys_untouched (store : Store) (s : String) (hs : s ≠ "")
    (body : Body) (k : String) (hk : k ≠ s) :
    lookupStore (getSettings store (some (QVal.str s))).1 k =
      lookupStore store k ∧
    lookupStore (postSettings store (some (QVal.str s)) body).1 k =
      lookupStore store k := by
  constructor
  · rw [getSettings_str store s hs]
    exact lookupStore_storeSet_ne store s k _ hk
  · rw [postSettings_str store s hs body]
    exact lookupStore_storeSet_ne store s k _ hk

/-- C10 witness: a request for `acme.myshopify.com` leaves the record of
`other.myshopify.com` untouched. -/
theorem C10_witness :
    lookupStore
      (getSettings [("other.myshopify.com", defaultSettings "other.myshopify.com")]
        (some (QVal.str "acme.myshopify.com"))).1 "other.myshopify.com" =
      lookupStore [("other.myshopify.com", defaultSettings "other.myshopify.com")]
        "other.myshopify.com" ∧
    lookupStore
      (postSettings [("other.myshopify.com", defaultSettings "other.myshopify.com")]
        (some (QVal.str "acme.myshopify.com")) onlyNotifyDeliveredFalse).1
      "other.myshopify.com" =
      lookupStore [("other.myshopify.com", defaultSettings "other.myshopify.com")]
        "other.myshopify.com" :=
  C10_other_keys_untouched
    [("other.myshopify.com", defaultSettings "other.myshopify.com")]
    "acme.myshopify.com" (by decide) onlyNotifyDeliveredFalse
    "other.myshopify.com" (by decide)

end Orderly
